import Mathlib

/-
Verification of the assertion library in src/assert/assert.py against its
natural-language specification.  The Python functions are shallowly embedded:
pure helpers become Lean functions, exception-raising code returns values in
the Except monad, and machine floats are modelled by an inductive type that
distinguishes NaN and the two signed zeros (the only float features the
library inspects).
-/

set_option autoImplicit false

namespace Assertion

/-- Model of a Python float as far as the library observes it: either the
NaN sentinel or a finite value given by a sign bit and a rational magnitude.
A magnitude of zero with differing sign bits yields the two signed zeros.
Infinities are not needed by any code path under study. -/
inductive Flt where
  | nan
  | fin (sign : Bool) (mag : ℚ)
deriving DecidableEq

/-- Positive zero, written 0.0 in the source. -/
def Flt.pzero : Flt := .fin false 0

/-- Negative zero, written -0.0 in the source. -/
def Flt.nzero : Flt := .fin true 0

/-- Numeric value of a float, if it has one: NaN has none, which makes it
compare unequal to every number including itself under Python ==. -/
def Flt.val : Flt → Option ℚ
  | .nan => none
  | .fin s m => some (if s then -m else m)

/-- Model of the Python values the claims exercise: None, bool, int, float,
str, bytes, list, tuple, and string-keyed dict.  Dicts are association lists
in insertion order, mirroring the ordered, unique-key Python dict; sets and
user objects are outside the claims and omitted. -/
inductive PyVal where
  | vNone
  | vBool (b : Bool)
  | vInt (n : Int)
  | vFloat (f : Flt)
  | vStr (s : String)
  | vBytes (bs : List Nat)
  | vList (xs : List PyVal)
  | vTuple (xs : List PyVal)
  | vDict (d : List (String × PyVal))

/-- Runtime type tag, the result of type(x) as far as comparisons need it. -/
def pyType : PyVal → String
  | .vNone => "NoneType"
  | .vBool _ => "bool"
  | .vInt _ => "int"
  | .vFloat _ => "float"
  | .vStr _ => "str"
  | .vBytes _ => "bytes"
  | .vList _ => "list"
  | .vTuple _ => "tuple"
  | .vDict _ => "dict"

/-- Numeric reading of a value under Python ==, which identifies bool, int
and float by value (True == 1, 0 == 0.0 == False).  Non-numeric values and
NaN read as none. -/
def asRat : PyVal → Option ℚ
  | .vBool b => some (if b then 1 else 0)
  | .vInt n => some (n : ℚ)
  | .vFloat f => f.val
  | _ => none

/-- Truthiness, Python bool(x), for the values modelled here.  Note that NaN
is truthy. -/
def pyTruthy : PyVal → Bool
  | .vNone => false
  | .vBool b => b
  | .vInt n => n != 0
  | .vFloat .nan => true
  | .vFloat (.fin _ m) => m != 0
  | .vStr s => s != ""
  | .vBytes bs => !bs.isEmpty
  | .vList xs => !xs.isEmpty
  | .vTuple xs => !xs.isEmpty
  | .vDict d => !d.isEmpty

/-- Checks isinstance(x, float) together with math.isnan(x), exactly the
conjunction the identity comparator tests. -/
def isNanV : PyVal → Bool
  | .vFloat .nan => true
  | _ => false

/-- Identity oracle: one execution of the source determines, for each pair of
references compared with the Python operator is, whether they are the same
object.  Any sound oracle must answer false on references holding different
values, since one object cannot hold two values; beyond that the answer
depends on interning and is left abstract. -/
abbrev Ident := PyVal → PyVal → Bool

/-- Soundness of an identity oracle: it may only identify equal values. -/
def identSound (ident : Ident) : Prop :=
  ∀ a b : PyVal, ident a b = true → a = b

/-- Oracle of an execution in which every compared pair consists of two
distinct objects, as is forced whenever the compared values differ. -/
def identNone : Ident := fun _ _ => false

theorem identNone_sound : identSound identNone := fun _ _ h => nomatch h

/-- First-match lookup in an association list, the model of the dict
subscript d[k] and of the membership test k in d. -/
def dictLookup : List (String × PyVal) → String → Option PyVal
  | [], _ => none
  | (k, v) :: rest, key => if k = key then some v else dictLookup rest key

/-- Membership test of a key in a key collection. -/
def strMem (k : String) : List String → Bool
  | [] => false
  | x :: xs => x = k || strMem k xs

theorem strMem_true_iff {k : String} {ks : List String} :
    strMem k ks = true ↔ k ∈ ks := by
  induction ks with
  | nil => simp [strMem]
  | cons x xs ih =>
    simp only [strMem, Bool.or_eq_true, decide_eq_true_eq, ih, List.mem_cons]
    exact ⟨fun h => h.elim (fun h1 => Or.inl h1.symm) Or.inr,
           fun h => h.elim (fun h1 => Or.inl h1.symm) Or.inr⟩

/-- Equality of key collections as sets, the model of the source comparison
set(a.keys()) == set(b.keys()): order and multiplicity are ignored. -/
def keySetEq (ks1 ks2 : List String) : Bool :=
  ks1.all (fun k => strMem k ks2) && ks2.all (fun k => strMem k ks1)

theorem keySetEq_true_iff {ks1 ks2 : List String} :
    keySetEq ks1 ks2 = true ↔ ks1.toFinset = ks2.toFinset := by
  constructor
  · intro h
    simp only [keySetEq, Bool.and_eq_true, List.all_eq_true, strMem_true_iff] at h
    apply Finset.ext
    intro x
    simp only [List.mem_toFinset]
    exact ⟨fun hx => h.1 x hx, fun hx => h.2 x hx⟩
  · intro h
    simp only [keySetEq, Bool.and_eq_true, List.all_eq_true, strMem_true_iff]
    have hiff : ∀ x : String, x ∈ ks1 ↔ x ∈ ks2 := by
      intro x
      rw [← List.mem_toFinset, ← List.mem_toFinset (l := ks2), h]
    exact ⟨fun x hx => (hiff x).mp hx, fun x hx => (hiff x).mpr hx⟩

/-- Fuel-indexed model of the Python equality operator == on the values
modelled here.  The fuel only bounds recursion depth; the wrapper pyEq below
supplies fuel no smaller than the combined structural size, which every
recursive call strictly shrinks, so the zero-fuel default is never reached.
Container comparison follows CPython: lengths first, then elementwise
PyObject_RichCompareBool, whose identity fast path is the ident argument;
dict comparison looks each key of the left operand up in the right one. -/
def pyEqF (ident : Ident) : Nat → PyVal → PyVal → Bool
  | 0, _, _ => false
  | n + 1, a, b =>
    match a, b with
    | .vNone, .vNone => true
    | .vStr s, .vStr t => s = t
    | .vBytes u, .vBytes w => u = w
    | .vList xs, .vList ys =>
      xs.length = ys.length &&
        (xs.zip ys).all (fun p => ident p.1 p.2 || pyEqF ident n p.1 p.2)
    | .vTuple xs, .vTuple ys =>
      xs.length = ys.length &&
        (xs.zip ys).all (fun p => ident p.1 p.2 || pyEqF ident n p.1 p.2)
    | .vDict d1, .vDict d2 =>
      d1.length = d2.length &&
        d1.all (fun kv =>
          match dictLookup d2 kv.1 with
          | some v2 => ident kv.2 v2 || pyEqF ident n kv.2 v2
          | none => false)
    | a, b =>
      match asRat a, asRat b with
      | some x, some y => x = y
      | _, _ => false

mutual

/-- Structural size of a value, counting one per constructor; used to bound
recursion depth. -/
def pySize : PyVal → Nat
  | .vNone => 1
  | .vBool _ => 1
  | .vInt _ => 1
  | .vFloat _ => 1
  | .vStr _ => 1
  | .vBytes _ => 1
  | .vList xs => 1 + pySizeList xs
  | .vTuple xs => 1 + pySizeList xs
  | .vDict d => 1 + pySizeDict d

/-- Structural size of a list of values. -/
def pySizeList : List PyVal → Nat
  | [] => 1
  | x :: xs => 1 + pySize x + pySizeList xs

/-- Structural size of an association list. -/
def pySizeDict : List (String × PyVal) → Nat
  | [] => 1
  | (_, v) :: rest => 1 + pySize v + pySizeDict rest

end

/-- Combined structural size, a fuel bound large enough for any comparison
of the two values. -/
def pyFuel (a b : PyVal) : Nat := pySize a + pySize b

/-- Python equality == on modelled values. -/
def pyEq (ident : Ident) (a b : PyVal) : Bool := pyEqF ident (pyFuel a b) a b

/-- Message text of the ZeroDivisionError produced by 1/a: float operands
report float division, int and bool operands report plain division. -/
def divMsg : PyVal → String
  | .vFloat _ => "float division by zero"
  | _ => "division by zero"

/-- Model of Python exception objects reaching the library: the builtin
classes the code can raise or be handed, each carrying its message text. -/
inductive PyErr where
  | typeError (msg : String)
  | valueError (msg : String)
  | zeroDivisionError (msg : String)
  | assertionError (msg : String)
  | keyError (key : String)
deriving DecidableEq

/-- Exception classes usable as isinstance targets. -/
inductive ErrClass where
  | exception
  | typeError
  | valueError
  | zeroDivisionError
  | assertionError
  | keyError
deriving DecidableEq

/-- Class membership test isinstance(err, cls); every modelled error is an
Exception, and the concrete classes have no subclass relations among them. -/
def isinstance (e : PyErr) (c : ErrClass) : Bool :=
  match c, e with
  | .exception, _ => true
  | .typeError, .typeError _ => true
  | .valueError, .valueError _ => true
  | .zeroDivisionError, .zeroDivisionError _ => true
  | .assertionError, .assertionError _ => true
  | .keyError, .keyError _ => true
  | _, _ => false

/-- String form str(err) of a builtin exception, its message.  For KeyError
Python additionally wraps the key in quotes; no claim inspects that, so the
bare key stands in. -/
def pyStrErr : PyErr → String
  | .typeError m => m
  | .valueError m => m
  | .zeroDivisionError m => m
  | .assertionError m => m
  | .keyError k => k

/-- Attribute lookup on a builtin exception object: only args exists; in
particular none of message, actual, expected, operator, generated_message or
code is present. -/
def errAttr (e : PyErr) (attr : String) : Option PyVal :=
  if attr = "args" then some (.vTuple [.vStr (pyStrErr e)]) else none

/-- Identity comparator object_is from the source (lines 218-231).  The order
of tests follows the code: the identity fast path, then the float NaN pair,
then the signed-zero test, then ordinary equality.  In Python the signed-zero
test evaluates 1/a, and division by a zero of any numeric type raises
ZeroDivisionError, so reaching that branch always raises rather than ever
returning the intended False. -/
def object_is (ident : Ident) (a b : PyVal) : Except PyErr Bool :=
  if ident a b then .ok true
  else if isNanV a && isNanV b then .ok true
  else if pyEq ident a (.vInt 0) && pyEq ident b (.vInt 0) then
    .error (.zeroDivisionError (divMsg a))
  else .ok (pyEq ident a b)

example : object_is identNone (.vInt 3) (.vInt 3) = .ok true := rfl
example : object_is identNone (.vFloat .nan) (.vFloat .nan) = .ok true := rfl
example : object_is identNone (.vInt 1) (.vStr "1") = .ok false := rfl
example : object_is identNone (.vFloat .pzero) (.vFloat .nzero)
    = .error (.zeroDivisionError "float division by zero") := rfl

/-- Short-circuiting conjunction over a list in the Except monad, the model
of the Python builtin all over a generator: elements are tested left to
right, the first False stops the traversal, and an exception raised by a
test propagates. -/
def exceptAll {α : Type} (f : α → Except PyErr Bool) : List α → Except PyErr Bool
  | [] => .ok true
  | x :: xs =>
    match f x with
    | .error e => .error e
    | .ok false => .ok false
    | .ok true => exceptAll f xs

/-- Fuel-indexed model of is_deep_equal from the source (lines 251-282).
The fuel only bounds recursion depth; the wrapper is_deep_equal below
supplies fuel no smaller than the combined structural size, which every
recursive call strictly shrinks, so the zero-fuel default is unreachable.
Branch order follows the code: the object_is fast path (whose exceptions
propagate), the runtime-type comparison, ordered sequences, dicts, bytes,
and the ordinary-equality fallback.  The dict branch compares key sets
first and then the values at each key of the left dict; a key missing on
the right (impossible after the key-set check) would raise KeyError. -/
def is_deep_equalF (ident : Ident) : Nat → PyVal → PyVal → Except PyErr Bool
  | 0, _, _ => .ok false
  | n + 1, a, b =>
    match object_is ident a b with
    | .error e => .error e
    | .ok r =>
      if r then .ok true
      else if pyType a ≠ pyType b then .ok false
      else
        match a, b with
        | .vList xs, .vList ys =>
          if xs.length ≠ ys.length then .ok false
          else exceptAll (fun p => is_deep_equalF ident n p.1 p.2) (xs.zip ys)
        | .vTuple xs, .vTuple ys =>
          if xs.length ≠ ys.length then .ok false
          else exceptAll (fun p => is_deep_equalF ident n p.1 p.2) (xs.zip ys)
        | .vDict d1, .vDict d2 =>
          if keySetEq (d1.map Prod.fst) (d2.map Prod.fst) then
            exceptAll
              (fun kv =>
                match dictLookup d2 kv.1 with
                | some v2 => is_deep_equalF ident n kv.2 v2
                | none => .error (.keyError kv.1))
              d1
          else .ok false
        | .vBytes u, .vBytes w => .ok (u = w)
        | a, b => .ok (pyEq ident a b)

/-- Recursive deep equality is_deep_equal, at a fuel bound the recursion can
never exhaust. -/
def is_deep_equal (ident : Ident) (a b : PyVal) : Except PyErr Bool :=
  is_deep_equalF ident (pyFuel a b) a b

example : is_deep_equal identNone (.vList [.vInt 1, .vList [.vInt 2, .vInt 3]])
    (.vList [.vInt 1, .vList [.vInt 2, .vInt 3]]) = .ok true := rfl
example : is_deep_equal identNone (.vList [.vInt 1, .vList [.vInt 2, .vInt 3]])
    (.vList [.vInt 1, .vList [.vInt 2, .vInt 4]]) = .ok false := rfl
example : is_deep_equal identNone (.vDict [("k", .vFloat .nan)])
    (.vDict [("k", .vFloat .nan)]) = .ok true := rfl

/-- Model of the message argument of the assertion functions, which Python
annotates as an optional string but which at runtime may also be an
exception instance (raised verbatim) or, after the reshuffling in throws
and does_not_throw, a compiled regular-expression object. -/
inductive Msg where
  | ofStr (s : String)
  | ofExc (e : PyErr)
  | ofPat (search : String → Bool)

/-- Model of the expectation argument of throws and does_not_throw: an
exception class, a predicate callable (which may itself raise), a compiled
regular expression abstracted by its search function composed with bool, a
property dict, or a bare string. -/
inductive Expectation where
  | cls (c : ErrClass)
  | pred (p : PyErr → Except PyErr PyVal)
  | pattern (search : String → Bool)
  | props (d : List (String × PyVal))
  | str (s : String)

/-- Truthiness of the expectation slot as tested by the source line
if expected and not test_error(...): None is falsy, an empty dict or empty
string is falsy, and every class, callable or compiled pattern is truthy. -/
def expTruthy : Option Expectation → Bool
  | none => false
  | some (.props d) => !d.isEmpty
  | some (.str s) => s != ""
  | some _ => true

/-- Model of lines 119-120 and 147-148: when the expectation argument is a
string or a compiled pattern, it is moved into the message slot and the
expectation becomes None. -/
def stripMsg (message : Option Msg) (expected : Option Expectation) :
    Option Msg × Option Expectation :=
  match expected with
  | some (.str s) => (some (.ofStr s), none)
  | some (.pattern g) => (some (.ofPat g), none)
  | e => (message, e)

/-- Walk of the property-dict branch of test_error: every listed key must
exist as an attribute of the error and its value must deep-equal the listed
value; an exception raised by the deep comparison propagates. -/
def matchProps (ident : Ident) : List (String × PyVal) → PyErr → Except PyErr Bool
  | [], _ => .ok true
  | (k, v) :: rest, err =>
    match errAttr err k with
    | none => .ok false
    | some av =>
      match is_deep_equal ident av v with
      | .error e => .error e
      | .ok false => .ok false
      | .ok true => matchProps ident rest err

/-- Error matcher test_error from the source (lines 284-313).  Dispatch
follows the code: exception classes first, then compiled patterns, then
other callables (whose own exceptions are swallowed and count as no match,
their result otherwise read through bool), then property dicts; a string or
None matches none of those tests and falls through to the final
return False.  The message and fn parameters of the source are unused by
its body; message is kept for signature fidelity. -/
def test_error (ident : Ident) (err : PyErr) (expected : Option Expectation)
    (message : Option Msg) : Except PyErr Bool :=
  match expected with
  | some (.cls c) => .ok (isinstance err c)
  | some (.pattern g) => .ok (g (pyStrErr err))
  | some (.pred p) =>
    .ok (match p err with
         | .ok v => pyTruthy v
         | .error _ => false)
  | some (.props d) => matchProps ident d err
  | some (.str _) => .ok false
  | none => .ok false

/-- Outcome of the expression AssertionError(message=..., actual=...,
expected=..., operator=..., generated_message=..., stack_start_fn=...) that
every failure path of the source executes: the name AssertionError denotes
the Python builtin, not the AssertError class of line 8, and BaseException
rejects keyword arguments, so the construction itself raises TypeError
before any assertion-error object exists. -/
def assertionErrorKwargs : PyErr :=
  .typeError "AssertionError() takes no keyword arguments"

/-- Truthy assertion assert_ (lines 53-69): on a falsy value, an exception
passed as message is raised verbatim; otherwise the AssertionError keyword
construction runs (and raises TypeError).  The message text computed for
the None case is discarded by that failing construction. -/
def assert_ (value : PyVal) (message : Option Msg) : Except PyErr Unit :=
  if pyTruthy value then .ok ()
  else
    match message with
    | some (.ofExc e) => .error e
    | _ => .error assertionErrorKwargs

/-- Strict equality assertion equal (lines 71-82): exceptions from object_is
propagate; on mismatch an exception passed as message is raised verbatim,
otherwise the AssertionError keyword construction raises TypeError. -/
def equal (ident : Ident) (actual expected : PyVal) (message : Option Msg) :
    Except PyErr Unit :=
  match object_is ident actual expected with
  | .error e => .error e
  | .ok true => .ok ()
  | .ok false =>
    match message with
    | some (.ofExc e) => .error e
    | _ => .error assertionErrorKwargs

/-- Strict inequality assertion not_equal (lines 84-95). -/
def not_equal (ident : Ident) (actual expected : PyVal) (message : Option Msg) :
    Except PyErr Unit :=
  match object_is ident actual expected with
  | .error e => .error e
  | .ok false => .ok ()
  | .ok true =>
    match message with
    | some (.ofExc e) => .error e
    | _ => .error assertionErrorKwargs

/-- Unconditional failure fail (lines 97-112). -/
def fail (message : Option Msg) : Except PyErr Unit :=
  match message with
  | some (.ofExc e) => .error e
  | _ => .error assertionErrorKwargs

/-- Assertion throws (lines 114-140): after the string-or-pattern reshuffle,
the callable runs; if it does not raise, the AssertionError keyword
construction raises TypeError; if it raises and a truthy expectation is
present, a failed match re-raises the original error and exceptions from
the matcher itself propagate. -/
def throws (ident : Ident) (func : Unit → Except PyErr PyVal)
    (expected : Option Expectation) (message : Option Msg) : Except PyErr Unit :=
  let p := stripMsg message expected
  match func () with
  | .ok _ => .error assertionErrorKwargs
  | .error err =>
    if expTruthy p.2 then
      match test_error ident err p.2 p.1 with
      | .error e => .error e
      | .ok true => .ok ()
      | .ok false => .error err
    else .ok ()

/-- Assertion does_not_throw (lines 142-162): after the reshuffle, the
callable runs; if it raises an error the matcher accepts, the
AssertionError keyword construction raises TypeError; if the matcher
rejects it (as it does every error when the expectation slot is None), the
bare raise re-raises the original error; matcher exceptions propagate. -/
def does_not_throw (ident : Ident) (func : Unit → Except PyErr PyVal)
    (expected : Option Expectation) (message : Option Msg) : Except PyErr Unit :=
  let p := stripMsg message expected
  match func () with
  | .ok _ => .ok ()
  | .error e =>
    match test_error ident e p.2 p.1 with
    | .error e2 => .error e2
    | .ok true => .error assertionErrorKwargs
    | .ok false => .error e

/-- Assertion if_error (lines 164-174): a non-None argument triggers the
AssertionError keyword construction, which raises TypeError. -/
def if_error (err : Option PyErr) : Except PyErr Unit :=
  match err with
  | none => .ok ()
  | some _ => .error assertionErrorKwargs

/-- Deep equality assertion deep_equal (lines 176-187): exceptions from
is_deep_equal propagate; on mismatch an exception passed as message is
raised verbatim, otherwise the AssertionError keyword construction raises
TypeError. -/
def deep_equal (ident : Ident) (actual expected : PyVal) (message : Option Msg) :
    Except PyErr Unit :=
  match is_deep_equal ident actual expected with
  | .error e => .error e
  | .ok true => .ok ()
  | .ok false =>
    match message with
    | some (.ofExc e) => .error e
    | _ => .error assertionErrorKwargs

/-- Deep inequality assertion not_deep_equal (lines 189-200). -/
def not_deep_equal (ident : Ident) (actual expected : PyVal) (message : Option Msg) :
    Except PyErr Unit :=
  match is_deep_equal ident actual expected with
  | .error e => .error e
  | .ok false => .ok ()
  | .ok true =>
    match message with
    | some (.ofExc e) => .error e
    | _ => .error assertionErrorKwargs

example : equal identNone (.vInt 1) (.vInt 1) none = .ok () := rfl
example : throws identNone (fun _ => .error (.valueError "x"))
    (some (.cls .valueError)) none = .ok () := rfl
example : throws identNone (fun _ => .error (.typeError "x"))
    (some (.cls .valueError)) none = .error (.typeError "x") := rfl

theorem dictLookup_mem_keys {d : List (String × PyVal)} {k : String} {v : PyVal}
    (h : dictLookup d k = some v) : k ∈ d.map Prod.fst := by
  induction d with
  | nil => simp [dictLookup] at h
  | cons kv rest ih =>
    obtain ⟨k0, v0⟩ := kv
    by_cases hk : k0 = k
    · subst hk; simp
    · rw [dictLookup, if_neg hk] at h
      simpa using Or.inr (ih h)

theorem pyEqF_dict_length_and_keys {ident : Ident} {n : Nat}
    {d1 d2 : List (String × PyVal)}
    (h : pyEqF ident n (.vDict d1) (.vDict d2) = true) :
    d1.length = d2.length ∧ ∀ k ∈ d1.map Prod.fst, k ∈ d2.map Prod.fst := by
  cases n with
  | zero => simp [pyEqF] at h
  | succ m =>
    simp only [pyEqF, Bool.and_eq_true, decide_eq_true_eq, List.all_eq_true] at h
    refine ⟨h.1, ?_⟩
    intro k hk
    obtain ⟨⟨k1, v1⟩, hmem, hfst⟩ := List.mem_map.mp hk
    have hall := h.2 ⟨k1, v1⟩ hmem
    cases hdl : dictLookup d2 k1 with
    | none => rw [hdl] at hall; simp at hall
    | some v2 =>
      have hk1 : k1 = k := hfst
      subst hk1
      exact dictLookup_mem_keys hdl

/-- C1: on failure, each assertion function of the source does not raise an
error object carrying message, actual, expected, operator, generatedMessage
and an error-code constant: the keyword construction of the builtin
AssertionError raises a bare TypeError first, on every failure path of
assert_, equal, not_equal, fail, throws, does_not_throw, if_error,
deep_equal and not_deep_equal, and that TypeError is not an assertion error
by class and exposes none of the promised attributes. -/
theorem assertion_failures_raise_bare_typeerror :
    equal identNone (.vInt 1) (.vInt 2) none = .error assertionErrorKwargs
    ∧ assert_ (.vBool false) (some (.ofStr "msg")) = .error assertionErrorKwargs
    ∧ fail none = .error assertionErrorKwargs
    ∧ not_equal identNone (.vInt 1) (.vInt 1) none = .error assertionErrorKwargs
    ∧ if_error (some (.valueError "e")) = .error assertionErrorKwargs
    ∧ deep_equal identNone (.vList [.vInt 1]) (.vList [.vInt 2]) none
        = .error assertionErrorKwargs
    ∧ not_deep_equal identNone (.vInt 7) (.vInt 7) none = .error assertionErrorKwargs
    ∧ throws identNone (fun _ => .ok .vNone) none none = .error assertionErrorKwargs
    ∧ does_not_throw identNone (fun _ => .error (.valueError "boom2"))
        (some (.cls .valueError)) none = .error assertionErrorKwargs
    ∧ assertionErrorKwargs = .typeError "AssertionError() takes no keyword arguments"
    ∧ isinstance assertionErrorKwargs .assertionError = false
    ∧ errAttr assertionErrorKwargs "operator" = none
    ∧ errAttr assertionErrorKwargs "actual" = none
    ∧ errAttr assertionErrorKwargs "expected" = none :=
  ⟨rfl, rfl, rfl, rfl, rfl, rfl, rfl, rfl, rfl, rfl, rfl, rfl, rfl, rfl⟩

/-- C2 counterexample: does_not_throw on a raising callable with no
expectation does not raise an assertion error tagged doesNotThrow; it
propagates the original ValueError itself. -/
theorem does_not_throw_wraps_counterexample :
    does_not_throw identNone (fun _ => .error (.valueError "boom")) none none
      = .error (.valueError "boom")
    ∧ isinstance (.valueError "boom") .assertionError = false :=
  ⟨rfl, rfl⟩

/-- C2 amended: for every callable that raises, does_not_throw with no
expectation re-raises the original error unchanged, because test_error
answers false for a None expectation and the bare raise then fires. -/
theorem does_not_throw_no_expectation_reraises (ident : Ident)
    (func : Unit → Except PyErr PyVal) (e : PyErr) (h : func () = .error e) :
    does_not_throw ident func none none = .error e := by
  simp [does_not_throw, stripMsg, test_error, h]

theorem does_not_throw_no_expectation_reraises_witness :
    does_not_throw identNone (fun _ => .error (.typeError "w")) none none
      = .error (.typeError "w") :=
  does_not_throw_no_expectation_reraises identNone
    (fun _ => .error (.typeError "w")) (.typeError "w") rfl

/-- Search function of an anchored pattern matching exactly the text xyz:
bool(pattern.search(s)) holds only for that text. -/
def patXyz : String → Bool := fun s => s = "xyz"

/-- C3: a compiled pattern passed to throws is never used for matching: it
is moved into the message slot, so throws passes although the raised error
does not match the pattern, instead of re-raising the original error; the
error matcher itself would have rejected the error. -/
theorem throws_pattern_expectation_discarded :
    throws identNone (fun _ => .error (.typeError "abc"))
      (some (.pattern patXyz)) none = .ok ()
    ∧ patXyz (pyStrErr (.typeError "abc")) = false
    ∧ test_error identNone (.typeError "abc") (some (.pattern patXyz)) none
        = .ok false :=
  ⟨rfl, rfl, rfl⟩

/-- C4: the identity comparator raises instead of returning a boolean when
both arguments compare equal to zero and are distinct objects: on the pair
(0, False) the signed-zero test divides by zero. -/
theorem object_is_raises_on_int_bool_zeros :
    object_is identNone (.vInt 0) (.vBool false)
      = .error (.zeroDivisionError "division by zero") := rfl

/-- C5: the identity comparator does not return False on (+0.0, -0.0) as
SameValue requires: the signed-zero test divides by zero and raises. -/
theorem object_is_raises_on_signed_zeros :
    object_is identNone (.vFloat .pzero) (.vFloat .nzero)
      = .error (.zeroDivisionError "float division by zero") := rfl

/-- Search function of an anchored pattern matching exactly the text nope. -/
def patNope : String → Bool := fun s => s = "nope"

/-- C6: a supplied expectation the raised error fails to match does not
always lead to the original error being re-raised: a compiled pattern is
stripped into the message slot, so throws passes even though the matcher
rejects the error. -/
theorem throws_nonmatching_pattern_not_reraised :
    throws identNone (fun _ => .error (.valueError "hello"))
      (some (.pattern patNope)) none = .ok ()
    ∧ test_error identNone (.valueError "hello") (some (.pattern patNope)) none
        = .ok false :=
  ⟨rfl, rfl⟩

/-- C7: deep equality on dicts demands identical key sets, order ignored,
and then compares values recursively: under any sound identity oracle, any
key-set difference between duplicate-free dicts yields False; the dicts
with keys a, b inserted in opposite orders compare True; and two dicts
holding NaN under the same key compare True, which only the recursive
value comparison (not Python ==) can conclude. -/
theorem is_deep_equal_dict_key_sets :
    (∀ ident : Ident, identSound ident →
      ∀ d1 d2 : List (String × PyVal),
        (d1.map Prod.fst).Nodup → (d2.map Prod.fst).Nodup →
        (d1.map Prod.fst).toFinset ≠ (d2.map Prod.fst).toFinset →
        is_deep_equal ident (.vDict d1) (.vDict d2) = .ok false)
    ∧ is_deep_equal identNone (.vDict [("a", .vInt 1), ("b", .vInt 2)])
        (.vDict [("b", .vInt 2), ("a", .vInt 1)]) = .ok true
    ∧ is_deep_equal identNone (.vDict [("k", .vFloat .nan)])
        (.vDict [("k", .vFloat .nan)]) = .ok true := by
  refine ⟨?_, rfl, rfl⟩
  intro ident hs d1 d2 hn1 hn2 hne
  have hid : ident (.vDict d1) (.vDict d2) = false := by
    cases hcase : ident (.vDict d1) (.vDict d2) with
    | false => rfl
    | true =>
      exfalso
      have := hs _ _ hcase
      injection this with h2
      exact hne (by rw [h2])
  have hz1 : pyEq ident (.vDict d1) (.vInt 0) = false := rfl
  have hpq : pyEq ident (.vDict d1) (.vDict d2) = false := by
    cases hcase : pyEq ident (.vDict d1) (.vDict d2) with
    | false => rfl
    | true =>
      exfalso
      obtain ⟨hlen, hsub⟩ := pyEqF_dict_length_and_keys hcase
      apply hne
      have hsubF : (d1.map Prod.fst).toFinset ⊆ (d2.map Prod.fst).toFinset := by
        intro x hx
        rw [List.mem_toFinset] at *
        exact hsub x hx
      apply Finset.eq_of_subset_of_card_le hsubF
      rw [List.toFinset_card_of_nodup hn1, List.toFinset_card_of_nodup hn2]
      simp [hlen]
  have hobj : object_is ident (.vDict d1) (.vDict d2) = .ok false := by
    rw [object_is, hid, hz1, hpq]
    rfl
  have hks : keySetEq (d1.map Prod.fst) (d2.map Prod.fst) = false := by
    cases hcase : keySetEq (d1.map Prod.fst) (d2.map Prod.fst) with
    | false => rfl
    | true => exact absurd (keySetEq_true_iff.mp hcase) hne
  obtain ⟨m, hm⟩ : ∃ m, pyFuel (.vDict d1) (.vDict d2) = m + 1 :=
    ⟨pySizeDict d1 + (1 + pySizeDict d2), by simp [pyFuel, pySize]; omega⟩
  show is_deep_equalF ident (pyFuel (.vDict d1) (.vDict d2))
      (.vDict d1) (.vDict d2) = .ok false
  rw [hm, is_deep_equalF, hobj]
  simp [pyType, hks]

theorem is_deep_equal_dict_key_sets_witness :
    is_deep_equal identNone (.vDict [("a", .vInt 0)]) (.vDict [("c", .vInt 0)])
      = .ok false :=
  is_deep_equal_dict_key_sets.1 identNone identNone_sound _ _
    (by simp) (by simp) (by decide)

/-- C8: when the predicate supplied as an expectation itself raises on the
error, the error matcher returns False rather than letting the exception
out. -/
theorem test_error_swallows_predicate_exception (ident : Ident) (err : PyErr)
    (p : PyErr → Except PyErr PyVal) (message : Option Msg) (e : PyErr)
    (h : p err = .error e) :
    test_error ident err (some (.pred p)) message = .ok false := by
  simp [test_error, h]

theorem test_error_swallows_predicate_exception_witness :
    test_error identNone (.typeError "t")
      (some (.pred (fun _ => .error (.valueError "inner")))) none = .ok false :=
  test_error_swallows_predicate_exception identNone (.typeError "t")
    (fun _ => .error (.valueError "inner")) none (.valueError "inner") rfl

/-- C9: a failing truthy assertion with no caller message does not produce
an error whose generatedMessage attribute is True: the raised error is the
keyword-argument TypeError, which is not an assertion error and has no
generated-message attribute at all. -/
theorem assert_raised_error_lacks_generated_message :
    assert_ (.vBool false) none = .error assertionErrorKwargs
    ∧ errAttr assertionErrorKwargs "generated_message" = none
    ∧ errAttr assertionErrorKwargs "generatedMessage" = none
    ∧ isinstance assertionErrorKwargs .assertionError = false :=
  ⟨rfl, rfl, rfl, rfl⟩

/-- C10: deep equality is not total on acyclic inputs: comparing the lists
[0.0, 1] and [-0.0, 2] recurses into the signed-zero pair and the identity
comparator raises ZeroDivisionError, which propagates out of is_deep_equal
instead of a boolean being returned. -/
theorem is_deep_equal_raises_on_nested_signed_zeros :
    is_deep_equal identNone (.vList [.vFloat .pzero, .vInt 1])
      (.vList [.vFloat .nzero, .vInt 2])
      = .error (.zeroDivisionError "float division by zero") := rfl

end Assertion
